import Mathlib

/-!
Verification of the error-handling layer of the lampo JSON-RPC client
(`lampo-jsonrpc/src/errors.rs`).

The Rust module defines:
  * `enum Error` with variants `Json(serde_json::Error)`, `Io(io::Error)`,
    `Rpc(RpcError)`, `NoErrorOrResult`, `NonceMismatch`, `VersionMismatch`;
  * `struct RpcError { code: i32, message: String, data: Option<serde_json::Value> }`
    with derived structural `PartialEq`;
  * `From` conversions `serde_json::Error → Error`, `io::Error → Error`,
    `RpcError → Error`, `anyhow::Error → Error`, and `Error → RpcError`;
  * a `Display` impl and an `error::Error::cause` impl.

We embed these shallowly.  The external error types (`serde_json::Error`,
`io::Error`, `anyhow::Error`) are opaque to this module: the code only ever
uses their `Display` output, so each is embedded as a record carrying its
display string.  `serde_json::Value` is embedded as an inductive JSON tree
(numbers abstracted to `Int`); the module never inspects it, it only stores
it in `data` and prints it through the derived `Debug` of `RpcError`.
-/

namespace Lampo

/-- Embedding of `serde_json::Value`: a JSON-like tree.  Numbers are
abstracted to `Int`; the source module never computes on the tree, it is
only stored and compared structurally. -/
inductive Json where
  | null : Json
  | bool (b : Bool) : Json
  | num (n : Int) : Json
  | str (s : String) : Json
  | arr (elems : List Json) : Json
  | obj (fields : List (String × Json)) : Json

/-- Embedding of `serde_json::Error`, opaque to this module except for its
display string. -/
structure SerdeJsonError where
  display : String

/-- Embedding of `std::io::Error`, opaque to this module except for its
display string. -/
structure IoError where
  display : String

/-- Embedding of `anyhow::Error`, an opaque failure value exposing only a
display string (the code uses it only via `format!("{e}")`). -/
structure AnyhowError where
  display : String

/-- Embedding of `struct RpcError` (errors.rs lines 76-83): a JSON-RPC 2.0
error object with fields `code : i32`, `message : String`,
`data : Option<serde_json::Value>`. -/
structure RpcError where
  code : Int
  message : String
  data : Option Json

/-- Embedding of `enum Error` (errors.rs lines 8-21). -/
inductive Error where
  | Json (e : SerdeJsonError) : Error
  | Io (e : IoError) : Error
  | Rpc (e : RpcError) : Error
  | NoErrorOrResult : Error
  | NonceMismatch : Error
  | VersionMismatch : Error

/-- Rust `char::escape_debug` as used by the `Debug` impl of `str`
(single quotes are not escaped there): `"` and `\` are backslash-escaped,
`\n`, `\t`, `\r` use their two-character escapes, and other control
characters print as a lowercase-hex unicode escape. -/
def charEscapeDebug (c : Char) : String :=
  if c = '"' then "\\\""
  else if c = '\\' then "\\\\"
  else if c = '\n' then "\\n"
  else if c = '\t' then "\\t"
  else if c = '\r' then "\\r"
  else if c.toNat < 32 then
    "\\u\x7b" ++ (Nat.toDigits 16 c.toNat).asString ++ "\x7d"
  else String.singleton c

/-- Escape a string the way Rust's `Debug` for `String` does (the quotes
around it are added by the caller). -/
def debugEscape (s : String) : String :=
  String.join (s.toList.map charEscapeDebug)

mutual

/-- The `Debug` representation of `serde_json::Value`: `Null`, `Bool(b)`,
`Number(n)`, `String("s")`, `Array [...]`, `Object {...}` (serde_json's
hand-written `Debug` impl). -/
def Json.debugFmt : Json → String
  | .null => "Null"
  | .bool b => "Bool(" ++ (if b then "true" else "false") ++ ")"
  | .num n => "Number(" ++ toString n ++ ")"
  | .str s => "String(\"" ++ debugEscape s ++ "\")"
  | .arr xs => "Array [" ++ Json.debugFmtList xs ++ "]"
  | .obj fs => "Object \x7b" ++ Json.debugFmtObj fs ++ "\x7d"

/-- Comma-separated `Debug` of a list of values (Rust `Debug` for `Vec`). -/
def Json.debugFmtList : List Json → String
  | [] => ""
  | [x] => Json.debugFmt x
  | x :: y :: xs => Json.debugFmt x ++ ", " ++ Json.debugFmtList (y :: xs)

/-- Comma-separated `Debug` of map entries (Rust `Debug` for the map type:
each entry prints as `"key": value`). -/
def Json.debugFmtObj : List (String × Json) → String
  | [] => ""
  | [(k, v)] => "\"" ++ debugEscape k ++ "\": " ++ Json.debugFmt v
  | (k, v) :: e :: fs =>
    "\"" ++ debugEscape k ++ "\": " ++ Json.debugFmt v ++ ", "
      ++ Json.debugFmtObj (e :: fs)

end

/-- The derived `Debug` representation of `RpcError`
(`#[derive(Debug)]` on the struct, non-alternate formatting):
`RpcError { code: <i32>, message: "<escaped>", data: None | Some(<value>) }`. -/
def RpcError.debugFmt (r : RpcError) : String :=
  "RpcError \x7b code: " ++ toString r.code
    ++ ", message: \"" ++ debugEscape r.message
    ++ "\", data: "
    ++ (match r.data with
        | none => "None"
        | some v => "Some(" ++ Json.debugFmt v ++ ")")
    ++ " \x7d"

/-- Embedding of `impl fmt::Display for Error` (errors.rs lines 51-62). -/
def Error.display : Error → String
  | .Json e => "JSON decode error: " ++ e.display
  | .Io e => "IO error response: " ++ e.display
  | .Rpc r => "RPC error response: " ++ r.debugFmt
  | .NoErrorOrResult => "Malformed RPC response"
  | .NonceMismatch => "Nonce of response did not match nonce of request"
  | .VersionMismatch => "`jsonrpc` field set to non-\"2.0\""

/-- Embedding of `impl From<serde_json::Error> for Error`
(errors.rs lines 23-27). -/
def Error.fromSerdeJson (e : SerdeJsonError) : Error := .Json e

/-- Embedding of `impl From<io::Error> for Error` (errors.rs lines 29-33). -/
def Error.fromIo (e : IoError) : Error := .Io e

/-- Embedding of `impl From<RpcError> for Error` (errors.rs lines 35-39). -/
def Error.fromRpcError (e : RpcError) : Error := .Rpc e

/-- Embedding of `impl From<anyhow::Error> for Error`
(errors.rs lines 41-49): wrap the display string in a synthesized
`RpcError` with `code = -1` and absent `data`. -/
def Error.fromAnyhow (e : AnyhowError) : Error :=
  .Rpc ⟨-1, e.display, none⟩

/-- Embedding of `impl From<Error> for RpcError` (errors.rs lines 85-96):
an `Rpc` variant returns its payload (the source clones it); every other
variant synthesizes `code = -1`, `message = format!("{value}")`,
`data = None`. -/
def RpcError.fromError : Error → RpcError
  | .Rpc rpc => rpc
  | e => ⟨-1, e.display, none⟩

/-- Embedding of `impl error::Error for Error`, method `cause`
(errors.rs lines 64-71): only the `Json` variant exposes its inner error. -/
def Error.cause : Error → Option SerdeJsonError
  | .Json e => some e
  | _ => none

/-- Discriminator for the `Rpc` variant. -/
def Error.isRpc : Error → Bool
  | .Rpc _ => true
  | _ => false

/-- Discriminator for the `Json` variant. -/
def Error.isJson : Error → Bool
  | .Json _ => true
  | _ => false

/-- C1: converting any `RpcError` to `Error` yields the `Rpc` variant
wrapping it, and converting that `Error` back to `RpcError` returns a value
structurally equal to the original in all three fields. -/
theorem rpcError_error_roundtrip (r : RpcError) :
    Error.fromRpcError r = Error.Rpc r ∧
    RpcError.fromError (Error.fromRpcError r) = r ∧
    (RpcError.fromError (Error.fromRpcError r)).code = r.code ∧
    (RpcError.fromError (Error.fromRpcError r)).message = r.message ∧
    (RpcError.fromError (Error.fromRpcError r)).data = r.data :=
  ⟨rfl, rfl, rfl, rfl, rfl⟩

/-- C2: converting any non-`Rpc` `Error` variant to `RpcError` yields
`code = -1`, `message` equal to the `Display` text of that `Error`, and
absent `data`. -/
theorem nonRpc_fromError (e : Error) (h : e.isRpc = false) :
    (RpcError.fromError e).code = -1 ∧
    (RpcError.fromError e).message = Error.display e ∧
    (RpcError.fromError e).data = none := by
  cases e with
  | Rpc r => simp [Error.isRpc] at h
  | Json e => exact ⟨rfl, rfl, rfl⟩
  | Io e => exact ⟨rfl, rfl, rfl⟩
  | NoErrorOrResult => exact ⟨rfl, rfl, rfl⟩
  | NonceMismatch => exact ⟨rfl, rfl, rfl⟩
  | VersionMismatch => exact ⟨rfl, rfl, rfl⟩

/-- Witness for C2 at the concrete input `Error.NonceMismatch`. -/
theorem nonRpc_fromError_witness :
    Error.isRpc Error.NonceMismatch = false ∧
    (RpcError.fromError Error.NonceMismatch).code = -1 ∧
    (RpcError.fromError Error.NonceMismatch).message
      = Error.display Error.NonceMismatch ∧
    (RpcError.fromError Error.NonceMismatch).data = none :=
  ⟨rfl, nonRpc_fromError Error.NonceMismatch rfl⟩

/-- C3: converting any opaque failure (a value exposing only a display
string) yields `Error.Rpc` wrapping `RpcError` with `code = -1`, the
display string as `message`, and absent `data`; in particular the opaque
failure displaying "disk full". -/
theorem anyhow_absorption :
    (∀ e : AnyhowError,
      Error.fromAnyhow e = Error.Rpc ⟨-1, e.display, none⟩) ∧
    Error.fromAnyhow ⟨"disk full"⟩ = Error.Rpc ⟨-1, "disk full", none⟩ :=
  ⟨fun _ => rfl, rfl⟩

/-- C4: the `Display` text of every `Error` value is exactly the string the
spec fixes for its variant. -/
theorem display_per_variant :
    (∀ e : SerdeJsonError,
      Error.display (Error.Json e) = "JSON decode error: " ++ e.display) ∧
    (∀ e : IoError,
      Error.display (Error.Io e) = "IO error response: " ++ e.display) ∧
    (∀ r : RpcError,
      Error.display (Error.Rpc r) = "RPC error response: " ++ r.debugFmt) ∧
    Error.display Error.NoErrorOrResult = "Malformed RPC response" ∧
    Error.display Error.NonceMismatch
      = "Nonce of response did not match nonce of request" ∧
    Error.display Error.VersionMismatch
      = "`jsonrpc` field set to non-\"2.0\"" :=
  ⟨fun _ => rfl, fun _ => rfl, fun _ => rfl, rfl, rfl, rfl⟩

/-- C6: the next-level cause of an `Error` is exposed exactly when the
variant is `Json` (the decode failure), in which case it is the underlying
decode error; every other variant reports no cause. -/
theorem cause_only_json :
    (∀ e : SerdeJsonError, Error.cause (Error.Json e) = some e) ∧
    (∀ e : Error, e.isJson = false → Error.cause e = none) := by
  refine ⟨fun _ => rfl, fun e h => ?_⟩
  cases e with
  | Json e => simp [Error.isJson] at h
  | Io e => rfl
  | Rpc r => rfl
  | NoErrorOrResult => rfl
  | NonceMismatch => rfl
  | VersionMismatch => rfl

/-- Witness for C6 at the concrete input `Error.NonceMismatch`. -/
theorem cause_only_json_witness :
    Error.isJson Error.NonceMismatch = false ∧
    Error.cause Error.NonceMismatch = none :=
  ⟨rfl, cause_only_json.2 Error.NonceMismatch rfl⟩

/-- C7: converting a decode failure yields the `Json` variant whose display
text is exactly "JSON decode error: " followed by the failure's display;
converting a transport failure yields the `Io` variant whose display text
starts with "IO error response: ". -/
theorem decode_transport_conversion_display :
    (∀ e : SerdeJsonError,
      Error.fromSerdeJson e = Error.Json e ∧
      Error.display (Error.fromSerdeJson e)
        = "JSON decode error: " ++ e.display) ∧
    (∀ e : IoError,
      Error.fromIo e = Error.Io e ∧
      ∃ rest, Error.display (Error.fromIo e)
        = "IO error response: " ++ rest) :=
  ⟨fun _ => ⟨rfl, rfl⟩, fun e => ⟨rfl, e.display, rfl⟩⟩

/-- C8: `RpcError` equality is purely structural over the three fields:
two values are equal iff their `code`, `message` and `data` fields all
agree, so a difference in any single field makes them unequal. -/
theorem rpcError_eq_structural (r1 r2 : RpcError) :
    r1 = r2 ↔
      r1.code = r2.code ∧ r1.message = r2.message ∧ r1.data = r2.data := by
  cases r1
  cases r2
  simp

/-- C9: each of the five conversions and the `Display` formatting is a
total pure function: on every input it is defined and returns exactly the
value characterized below, with no error branch.  (Each embedded function
is a total Lean function; the conjuncts fix its value on all inputs.) -/
theorem conversions_total_characterization :
    (∀ e : SerdeJsonError, Error.fromSerdeJson e = Error.Json e) ∧
    (∀ e : IoError, Error.fromIo e = Error.Io e) ∧
    (∀ r : RpcError, Error.fromRpcError r = Error.Rpc r) ∧
    (∀ e : AnyhowError,
      Error.fromAnyhow e = Error.Rpc ⟨-1, e.display, none⟩) ∧
    (∀ e : Error, RpcError.fromError e =
      match e with
      | Error.Rpc r => r
      | eo => ⟨-1, Error.display eo, none⟩) ∧
    (∀ e : Error, Error.display e =
      match e with
      | Error.Json je => "JSON decode error: " ++ je.display
      | Error.Io ie => "IO error response: " ++ ie.display
      | Error.Rpc r => "RPC error response: " ++ r.debugFmt
      | Error.NoErrorOrResult => "Malformed RPC response"
      | Error.NonceMismatch =>
          "Nonce of response did not match nonce of request"
      | Error.VersionMismatch => "`jsonrpc` field set to non-\"2.0\"") := by
  refine ⟨fun _ => rfl, fun _ => rfl, fun _ => rfl, fun _ => rfl,
    fun e => ?_, fun e => ?_⟩
  all_goals cases e <;> rfl

/-- C10: conversion 5 stabilizes after one step: for every `Error` value,
converting to `RpcError`, re-injecting as the `Rpc` variant, and converting
again returns the same `RpcError` exactly. -/
theorem fromError_reinjection_stable (e : Error) :
    RpcError.fromError (Error.fromRpcError (RpcError.fromError e))
      = RpcError.fromError e := by
  cases e <;> rfl

end Lampo
